import Mathlib

/-!
Shallow embedding of the arms-trade choropleth pipeline
(src/plot_maps.py, src/process_arms_trade_data.py) and proofs about it.

Quantities are modelled as integers (`Int`); missing values produced by the
pandas left join are modelled as `Option`; the floating-point `signed_log`
is modelled over the reals.
-/

namespace ArmsTrade

/-- Activity mode of a query, the four values accepted by `MapPlotter`. -/
inductive Activity where
  | supplied
  | received
  | netBalance
  | totalActivity
deriving DecidableEq, Repr

/-- One row of the enriched trade register (output of
`ArmsTradeData.get_arms_trade_data`, input of `MapPlotter`). -/
structure TradeRow where
  supplier : String
  recipient : String
  supplierIso : String
  recipientIso : String
  supplierType : String
  recipientType : String
  orderYear : Int
  category : String
  units : Int
deriving DecidableEq, Repr

/-- A query: the parameters of `MapPlotter.__init__`.  `year = none` models
the string value "Overall"; `armsCategory = none` models "All". -/
structure Query where
  activity : Activity
  year : Option Int
  armsCategory : Option String
  regionType : String
  region : Option String
deriving DecidableEq, Repr

/-- Grouping identity: the (name, iso_a3, region_type) triple used as the
groupby / merge key in `calculate_totals_global` and
`calculate_totals_for_region`. -/
structure Ident where
  name : String
  iso : String
  rtype : String
deriving DecidableEq, Repr

/-- The supplier-side identity of a row. -/
def supplierId (r : TradeRow) : Ident := ⟨r.supplier, r.supplierIso, r.supplierType⟩

/-- The recipient-side identity of a row. -/
def recipientId (r : TradeRow) : Ident := ⟨r.recipient, r.recipientIso, r.recipientType⟩

/-- The year filter of `MapPlotter.filter_data` (`'Overall'` keeps all rows). -/
def yearFilter (q : Query) (df : List TradeRow) : List TradeRow :=
  match q.year with
  | none => df
  | some y => df.filter (fun r => decide (r.orderYear = y))

/-- The armament-category filter of `MapPlotter.filter_data` (`'All'` keeps
all rows). -/
def catFilter (q : Query) (df : List TradeRow) : List TradeRow :=
  match q.armsCategory with
  | none => df
  | some c => df.filter (fun r => decide (r.category = c))

/-- The focus-region participation filter of `MapPlotter.filter_data`: for
`Supplied` the focus must be the supplier and the recipient's region type
must equal the query's region-type value; for `Received` the focus must be
the recipient; for the composite modes the focus must participate on either
side. -/
def regionActivityFilter (q : Query) (df : List TradeRow) : List TradeRow :=
  match q.region with
  | none => df
  | some reg =>
    match q.activity with
    | .supplied =>
        (df.filter (fun r => decide (r.supplier = reg))).filter
          (fun r => decide (r.recipientType = q.regionType))
    | .received => df.filter (fun r => decide (r.recipient = reg))
    | _ => df.filter (fun r => decide (r.supplier = reg) || decide (r.recipient = reg))

/-- `MapPlotter.filter_data`: the three filter stages in source order. -/
def filterData (q : Query) (df : List TradeRow) : List TradeRow :=
  regionActivityFilter q (catFilter q (yearFilter q df))

/-- Sum of the unit column over the rows whose `key`-side identity is `k`;
the value a pandas `groupby(...).sum()` assigns to group `k`. -/
def sumBy (key : TradeRow → Ident) (rows : List TradeRow) (k : Ident) : Int :=
  ((rows.filter (fun r => decide (key r = k))).map (fun r => r.units)).sum

/-- `df.groupby([name, iso, region_type]).sum()`: one output pair per
distinct key, carrying the summed units. -/
def groupSum (key : TradeRow → Ident) (rows : List TradeRow) : List (Ident × Int) :=
  ((rows.map key).dedup).map (fun k => (k, sumBy key rows k))

/-- Lookup of the value attached to identity `k` in a grouped table
(first match wins, as in a pandas merge against a key-unique frame). -/
def lookupI (k : Ident) : List (Ident × Int) → Option Int
  | [] => none
  | p :: t => if p.1 = k then some p.2 else lookupI k t

/-- `pd.merge(left, right, how='outer')` on the identity key followed by
`fillna(0)` and the coalescing of the key columns: left rows keep their
value and take the matching right value (or 0), unmatched right rows are
appended with 0 for the left value. -/
def outerJoin (l r : List (Ident × Int)) : List (Ident × Int × Int) :=
  l.map (fun p => (p.1, p.2, (lookupI p.1 r).getD 0)) ++
    (r.filter (fun p => decide (lookupI p.1 l = none))).map (fun p => (p.1, 0, p.2))

/-- The two directional groupings of `calculate_totals_global` outer-joined:
component 1 is the 'Supplied' column (row sum as supplier), component 2 the
'Received' column (row sum as recipient). -/
def dirJoin (rows : List TradeRow) : List (Ident × Int × Int) :=
  outerJoin (groupSum supplierId rows) (groupSum recipientId rows)

/-- The outer join of `calculate_totals_for_region` (left and right swapped
relative to the global path): component 1 is the 'Received' column, component
2 the 'Supplied' column. -/
def dirJoinFocus (rows : List TradeRow) : List (Ident × Int × Int) :=
  outerJoin (groupSum recipientId rows) (groupSum supplierId rows)

/-- One aggregate row (`self.data` after `calculate_totals_*`): the
'Supplied' / 'Received' columns exist only in the composite modes. -/
structure AggRow where
  region : String
  iso : String
  rtype : String
  supplied : Option Int
  received : Option Int
  units : Int
deriving DecidableEq, Repr

/-- `MapPlotter.calculate_totals_global`. -/
def calcTotalsGlobal (q : Query) (rows : List TradeRow) : List AggRow :=
  match q.activity with
  | .supplied =>
      (groupSum supplierId rows).map
        (fun p => ⟨p.1.name, p.1.iso, p.1.rtype, none, none, p.2⟩)
  | .received =>
      (groupSum recipientId rows).map
        (fun p => ⟨p.1.name, p.1.iso, p.1.rtype, none, none, p.2⟩)
  | a =>
      (dirJoin rows).map
        (fun t => ⟨t.1.name, t.1.iso, t.1.rtype, some t.2.1, some t.2.2,
          if a = .netBalance then t.2.1 - t.2.2 else t.2.1 + t.2.2⟩)

/-- `MapPlotter.calculate_totals_for_region`, including the final drop of
the focus region's own row. -/
def calcTotalsForRegion (q : Query) (rows : List TradeRow) : List AggRow :=
  let base := match q.activity with
    | .supplied =>
        (groupSum recipientId rows).map
          (fun p => ⟨p.1.name, p.1.iso, p.1.rtype, none, none, p.2⟩)
    | .received =>
        (groupSum supplierId rows).map
          (fun p => ⟨p.1.name, p.1.iso, p.1.rtype, none, none, p.2⟩)
    | a =>
        (dirJoinFocus rows).map
          (fun t => ⟨t.1.name, t.1.iso, t.1.rtype, some t.2.2, some t.2.1,
            if a = .netBalance then t.2.1 - t.2.2 else t.2.2 + t.2.1⟩)
  match q.region with
  | some reg => base.filter (fun a => decide (a.region ≠ reg))
  | none => base

/-- `MapPlotter.filter_region_type`: "All regions" keeps everything,
"Country" also admits "Former Country", anything else is an equality test. -/
def filterRegionType (q : Query) (aggs : List AggRow) : List AggRow :=
  if q.regionType = "All regions" then aggs
  else if q.regionType = "Country" then
    aggs.filter (fun a => decide (a.rtype = "Country" ∨ a.rtype = "Former Country"))
  else aggs.filter (fun a => decide (a.rtype = q.regionType))

/-- The aggregate table of `prepare_plot_data` just before the emptiness
check: row filter, totals (per focus dispatch), region-type filter. -/
def prepareTable (q : Query) (df : List TradeRow) : List AggRow :=
  let rows := filterData q df
  let t := match q.region with
    | some _ => calcTotalsForRegion q rows
    | none => calcTotalsGlobal q rows
  filterRegionType q t

/-- One renderable region of the boundary dataset (`world_map_data`):
canonical name and iso_a3 code (geometry is out of scope). -/
structure WorldRow where
  name : String
  iso : String
deriving DecidableEq, Repr

/-- One row of the frame produced by `merge_geolocation_data`: the world
columns are always present, the aggregate columns are `none` (pandas NaN)
for renderable regions with no matching aggregate row. -/
structure MergedRow where
  worldName : String
  iso : String
  region : Option String
  rtype : Option String
  supplied : Option Int
  received : Option Int
  units : Option Int
deriving DecidableEq, Repr

/-- The merged rows one world-map row contributes to the left join: its
matching aggregate rows (with the display-name overwrite of
`merge_geolocation_data`: canonical world name for Country / Former Country
rows), or a single all-null row when nothing matches. -/
def mergeBlock (aggs : List AggRow) (w : WorldRow) : List MergedRow :=
  match aggs.filter (fun a => decide (a.iso = w.iso)) with
  | [] => [⟨w.name, w.iso, none, none, none, none, none⟩]
  | ms => ms.map (fun a =>
      ⟨w.name, w.iso,
        if a.rtype = "Country" ∨ a.rtype = "Former Country" then some w.name
        else some a.region,
        some a.rtype, a.supplied, a.received, some a.units⟩)

/-- `MapPlotter.merge_geolocation_data`: left join of the world map frame
against the aggregate on iso_a3 (order of the world frame preserved). -/
def mergeGeolocation (world : List WorldRow) (aggs : List AggRow) : List MergedRow :=
  world.flatMap (fun w => mergeBlock aggs w)

/-- `MapPlotter.prepare_plot_data`: raises "No data for selected filters."
when the filtered aggregate is empty, otherwise returns the merged frame. -/
def preparePlotData (q : Query) (df : List TradeRow) (world : List WorldRow) :
    Except String (List MergedRow) :=
  if prepareTable q df = [] then Except.error "No data for selected filters."
  else Except.ok (mergeGeolocation world (prepareTable q df))

/-! ### Classification (`ArmsTradeData.assign_region_types` / `get_region_type`) -/

/-- Boolean substring test on character lists, the embedding of Python's
`'unknown' in region`. -/
def hasSub (pat : List Char) : List Char → Bool
  | [] => pat.isEmpty
  | c :: rest => pat.isPrefixOf (c :: rest) || hasSub pat rest

/-- Substring test on strings. -/
def strHas (s pat : String) : Bool := hasSub pat.toList s.toList

/-- Suffix test on strings, the embedding of Python's `region.endswith(m)`. -/
def strEnds (s pat : String) : Bool := pat.toList.isSuffixOf s.toList

/-- The hardcoded list of nine historical states
(`ArmsTradeData.assign_region_types`, `self.former_countries`). -/
def formerCountriesList : List String :=
  ["Biafra", "Czechoslovakia", "East Germany (GDR)", "North Yemen",
   "Northern Cyprus", "South Vietnam", "South Yemen", "Soviet Union", "Yugoslavia"]

/-- `self.regions`: the distinct partner names of the register (union of the
supplier and recipient columns). -/
def mkRegions (df : List TradeRow) : List String :=
  ((df.map (fun r => r.supplier)) ++ (df.map (fun r => r.recipient))).dedup

/-- `self.countries`: names with no "unknown" marker, no trailing asterisk,
minus the former countries. -/
def countriesOf (regions : List String) : List String :=
  (regions.filter (fun r => !(strHas r "unknown") && !(strEnds r "*"))).filter
    (fun r => decide (r ∉ formerCountriesList))

/-- `self.rebel_groups`: names ending in a single (not double) asterisk. -/
def rebelGroupsOf (regions : List String) : List String :=
  regions.filter (fun r => !(strHas r "unknown") && strEnds r "*" && !(strEnds r "**"))

/-- `self.orgs`: names ending in a double asterisk. -/
def orgsOf (regions : List String) : List String :=
  regions.filter (fun r => !(strHas r "unknown") && strEnds r "**")

/-- `ArmsTradeData.get_region_type`, with the lists built from the given
region-name set. -/
def getRegionType (regions : List String) (r : String) : String :=
  if r ∈ countriesOf regions then "Country"
  else if r ∈ formerCountriesList then "Former Country"
  else if r ∈ orgsOf regions then "Organisation"
  else if r ∈ rebelGroupsOf regions then "Rebel Group"
  else "Unknown"

/-- Classification rule as the spec states it (refinement reference for the
comparison with `getRegionType`): unknown marker, then double asterisk, then
single asterisk, then the nine historical states, else Country. -/
def specRegionType (r : String) : String :=
  if strHas r "unknown" then "Unknown"
  else if strEnds r "**" then "Organisation"
  else if strEnds r "*" then "Rebel Group"
  else if r ∈ formerCountriesList then "Former Country"
  else "Country"

/-- The five region-type variants. -/
def regionTypeVariants : List String :=
  ["Country", "Former Country", "Organisation", "Rebel Group", "Unknown"]

/-! ### Signed log (`signed_log`) and colorbar ticks (`get_cbar_ticks`) -/

/-- `signed_log`: `np.sign(x) * np.log1p(np.abs(x))`, modelled over the reals. -/
noncomputable def signedLog (x : ℝ) : ℝ := Real.sign x * Real.log (1 + |x|)

/-- Modelled from the spec: the inverse of the signed-log transform,
`sign(y) * (exp(|y|) - 1)`; the repository has no source for it, only the
spec's formula. -/
noncomputable def signedLogInv (y : ℝ) : ℝ := Real.sign y * (Real.exp |y| - 1)

/-- Python's `round(m, -d)` on a natural number: round to the nearest
multiple of `10^d`, ties to the even multiple. -/
def roundToMultiple (m p : Nat) : Nat :=
  let q := m / p
  let r := m % p
  if 2 * r < p then q * p
  else if 2 * r > p then (q + 1) * p
  else if q % 2 = 0 then q * p else (q + 1) * p

/-- `round(max_abs_value, -int(math.floor(math.log10(abs(max_abs_value)))))`:
round to the leading significant digit. -/
def roundLeading (m : Nat) : Nat := roundToMultiple m (10 ^ Nat.log 10 m)

/-- `10 ** (int(math.log10(max_abs_value) + 1))` applied to the rounded
maximum: the colorbar's power-of-ten upper bound. -/
def cbarBound (m : Nat) : Nat := 10 ^ (Nat.log 10 (roundLeading m) + 1)

/-- `[10**i for i in range(1, int(math.log10(max_abs_value) + 1))]`:
the non-diverging tick label values. -/
def cbarTickText (m : Nat) : List Int :=
  (List.range' 1 (Nat.log 10 (cbarBound m))).map (fun i => (10 : Int) ^ i)

/-- `sorted(powers_of_10_neg + [0] + powers_of_10_pos)`: the diverging
(Net Balance) tick label values. -/
def cbarTickTextDiv (m : Nat) : List Int :=
  List.insertionSort (fun a b => a ≤ b)
    ((cbarTickText m).map (fun x => -x) ++ [0] ++ cbarTickText m)

/-- `MapPlotter.get_cbar_ticks` as a function of the maximum absolute raw
value and of whether the activity is "Net Balance": returns
(tickvals, ticktext), tick positions being the signed log of the labels. -/
noncomputable def getCbarTicks (m : Nat) (diverging : Bool) : List ℝ × List Int :=
  let tt := if diverging then cbarTickTextDiv m else cbarTickText m
  (tt.map (fun t => signedLog (t : ℝ)), tt)

/-! ### Titles and hover templates (`get_plot_dict_global` / `get_plot_dict_for_region`) -/

/-- Python's f-string rendering of `self.region` (an `Option`): `None`
renders as the four-letter string "None". -/
def pyOptStr : Option String → String
  | none => "None"
  | some r => r

/-- The year part shared by both title builders. -/
def titleYearPart (q : Query) : String :=
  match q.year with
  | none => ""
  | some y => toString y ++ " - "

/-- The armament-category suffix shared by both title builders. -/
def titleCategoryPart (q : Query) : String :=
  match q.armsCategory with
  | none => ""
  | some c => " - " ++ c

/-- The activity phrase of `get_plot_dict_global`. -/
def activityPhraseGlobal : Activity → String
  | .supplied => "Weapons Supplied to other regions"
  | .received => "Weapons Received from other regions"
  | .netBalance => "Net Balance (Supplied - Received)"
  | .totalActivity => "Total Activity (Supplied + Received)"

/-- The activity phrase of `get_plot_dict_for_region`. -/
def activityPhraseForRegion : Activity → String
  | .supplied => "Weapons Supplied"
  | .received => "Weapons Received"
  | .netBalance => "Net Balance (Supplied - Received)"
  | .totalActivity => "Total Activity (Supplied + Received)"

/-- Title assembled by `get_plot_dict_global`: it always starts with the
f-string rendering of `self.region` followed by " - ". -/
def titleGlobal (q : Query) : String :=
  pyOptStr q.region ++ " - " ++ titleYearPart q ++ activityPhraseGlobal q.activity
    ++ titleCategoryPart q

/-- Title assembled by `get_plot_dict_for_region`: no region prefix. -/
def titleForRegion (q : Query) : String :=
  titleYearPart q ++ activityPhraseForRegion q.activity ++ titleCategoryPart q

/-- The title the rendered figure gets: `plot_choropleth` dispatches on
whether a focus region is set. -/
def plotTitle (q : Query) : String :=
  match q.region with
  | some _ => titleForRegion q
  | none => titleGlobal q

/-- Hover template of `get_plot_dict_global` (`unit` is the unit column
name); for composite modes the labels are "Supplied by {region}" and
"Received from other regions". -/
def hovertemplateGlobal (unit : String) (q : Query) : String :=
  match q.activity with
  | .supplied =>
      "<b>%\x7blocation\x7d</b><br>" ++ unit ++ ": %\x7bcustomdata:.2f\x7d<extra></extra>"
  | .received =>
      "<b>%\x7blocation\x7d</b><br>" ++ unit ++ ": %\x7bcustomdata:.2f\x7d<extra></extra>"
  | _ =>
      "<b>%\x7blocation\x7d</b><br>" ++ unit ++ ": %\x7bcustomdata[0]:.2f\x7d<br>Supplied by "
        ++ pyOptStr q.region ++ ": %\x7bcustomdata[1]:.2f\x7d<br>Received from other regions: %\x7bcustomdata[2]:.2f\x7d<extra></extra>"

/-- Hover template of `get_plot_dict_for_region`; for composite modes the
labels are the plain "Supplied" and "Received". -/
def hovertemplateForRegion (unit : String) (q : Query) : String :=
  match q.activity with
  | .supplied =>
      "<b>%\x7blocation\x7d</b><br>" ++ unit ++ ": %\x7bcustomdata:.2f\x7d<extra></extra>"
  | .received =>
      "<b>%\x7blocation\x7d</b><br>" ++ unit ++ ": %\x7bcustomdata:.2f\x7d<extra></extra>"
  | _ =>
      "<b>%\x7blocation\x7d</b><br>" ++ unit
        ++ ": %\x7bcustomdata[0]:.2f\x7d<br>Supplied: %\x7bcustomdata[1]:.2f\x7d<br>Received: %\x7bcustomdata[2]:.2f\x7d<extra></extra>"

/-- The hover template the rendered figure gets (dispatch of
`plot_choropleth`). -/
def plotHovertemplate (unit : String) (q : Query) : String :=
  match q.region with
  | some _ => hovertemplateForRegion unit q
  | none => hovertemplateGlobal unit q

/-- The customdata stacked for composite modes: per merged row the primary
metric, the 'Supplied' value and the 'Received' value. -/
def customdataComposite (ms : List MergedRow) : List (Option Int × Option Int × Option Int) :=
  ms.map (fun m => (m.units, m.supplied, m.received))

/-! ### Lemmas about grouping and the outer join -/

lemma sumBy_of_not_mem (key : TradeRow → Ident) (rows : List TradeRow) (k : Ident)
    (h : k ∉ rows.map key) : sumBy key rows k = 0 := by
  have hf : rows.filter (fun r => decide (key r = k)) = [] := by
    rw [List.filter_eq_nil_iff]
    intro r hr
    simp only [decide_eq_true_eq]
    intro hk
    exact h (hk ▸ List.mem_map_of_mem key hr)
  rw [sumBy, hf]
  rfl

lemma mem_groupSum {key : TradeRow → Ident} {rows : List TradeRow} {k : Ident} {v : Int} :
    (k, v) ∈ groupSum key rows ↔ k ∈ rows.map key ∧ v = sumBy key rows k := by
  rw [groupSum, List.mem_map]
  constructor
  · rintro ⟨a, ha, heq⟩
    injection heq with h1 h2
    subst h1
    subst h2
    exact ⟨List.mem_dedup.mp ha, rfl⟩
  · rintro ⟨hk, rfl⟩
    exact ⟨k, List.mem_dedup.mpr hk, rfl⟩

lemma lookupI_mapSelf (g : Ident → Int) (l : List Ident) (k : Ident) :
    lookupI k (l.map (fun a => (a, g a))) = if k ∈ l then some (g k) else none := by
  induction l with
  | nil => rfl
  | cons a t ih =>
    simp only [List.map_cons, lookupI]
    by_cases h : a = k
    · subst h
      simp
    · rw [if_neg h, ih]
      by_cases hk : k ∈ t
      · rw [if_pos hk, if_pos (List.mem_cons.mpr (Or.inr hk))]
      · rw [if_neg hk, if_neg ?_]
        rw [List.mem_cons]
        rintro (rfl | hkt)
        · exact h rfl
        · exact hk hkt

lemma lookupI_groupSum (key : TradeRow → Ident) (rows : List TradeRow) (k : Ident) :
    lookupI k (groupSum key rows) =
      if k ∈ rows.map key then some (sumBy key rows k) else none := by
  rw [groupSum, lookupI_mapSelf]
  by_cases hk : k ∈ rows.map key
  · simp [hk, List.mem_dedup]
  · simp [hk, List.mem_dedup]

lemma mem_outerJoin_group (key1 key2 : TradeRow → Ident) (rows : List TradeRow)
    (k : Ident) (a b : Int) :
    (k, a, b) ∈ outerJoin (groupSum key1 rows) (groupSum key2 rows) ↔
      ((k ∈ rows.map key1 ∨ k ∈ rows.map key2) ∧
        a = sumBy key1 rows k ∧ b = sumBy key2 rows k) := by
  rw [outerJoin, List.mem_append, List.mem_map, List.mem_map]
  constructor
  · rintro (⟨⟨p1, p2⟩, hp, heq⟩ | ⟨⟨p1, p2⟩, hpf, heq⟩)
    · injection heq with h1 hrest
      injection hrest with h2 h3
      subst h1
      subst h2
      obtain ⟨hmem, hval⟩ := mem_groupSum.mp hp
      refine ⟨Or.inl hmem, hval, ?_⟩
      rw [lookupI_groupSum] at h3
      by_cases hk2 : p1 ∈ rows.map key2
      · rw [if_pos hk2] at h3
        exact h3.symm
      · rw [if_neg hk2] at h3
        rw [sumBy_of_not_mem key2 rows p1 hk2]
        exact h3.symm
    · rw [List.mem_filter] at hpf
      obtain ⟨hp, hcond⟩ := hpf
      injection heq with h1 hrest
      injection hrest with h2 h3
      subst h1
      subst h2
      subst h3
      obtain ⟨hmem, hval⟩ := mem_groupSum.mp hp
      have hnone : lookupI p1 (groupSum key1 rows) = none := of_decide_eq_true hcond
      rw [lookupI_groupSum] at hnone
      have h1 : p1 ∉ rows.map key1 := by
        intro hin
        rw [if_pos hin] at hnone
        exact Option.some_ne_none _ hnone
      exact ⟨Or.inr hmem, (sumBy_of_not_mem key1 rows p1 h1).symm, hval⟩
  · rintro ⟨hmem, rfl, rfl⟩
    by_cases h1 : k ∈ rows.map key1
    · left
      refine ⟨(k, sumBy key1 rows k), mem_groupSum.mpr ⟨h1, rfl⟩, ?_⟩
      rw [lookupI_groupSum]
      by_cases h2 : k ∈ rows.map key2
      · rw [if_pos h2]
        rfl
      · rw [if_neg h2, sumBy_of_not_mem key2 rows k h2]
        rfl
    · have h2 : k ∈ rows.map key2 := hmem.resolve_left h1
      right
      refine ⟨(k, sumBy key2 rows k), ?_, ?_⟩
      · rw [List.mem_filter]
        refine ⟨mem_groupSum.mpr ⟨h2, rfl⟩, ?_⟩
        rw [lookupI_groupSum, if_neg h1]
        exact decide_eq_true rfl
      · rw [sumBy_of_not_mem key1 rows k h1]

lemma mem_dirJoin (rows : List TradeRow) (k : Ident) (s r : Int) :
    (k, s, r) ∈ dirJoin rows ↔
      ((k ∈ rows.map supplierId ∨ k ∈ rows.map recipientId) ∧
        s = sumBy supplierId rows k ∧ r = sumBy recipientId rows k) :=
  mem_outerJoin_group supplierId recipientId rows k s r

lemma mem_dirJoinFocus (rows : List TradeRow) (k : Ident) (rv sv : Int) :
    (k, rv, sv) ∈ dirJoinFocus rows ↔
      ((k ∈ rows.map recipientId ∨ k ∈ rows.map supplierId) ∧
        rv = sumBy recipientId rows k ∧ sv = sumBy supplierId rows k) :=
  mem_outerJoin_group recipientId supplierId rows k rv sv

/-! ### Concrete fixtures: the spec's scenario register and small variants -/

/-- The one-row register of the spec's scenarios:
Supplier "Russia", Recipient "India", year 2020, category "Aircraft", 50 units. -/
def df1 : List TradeRow :=
  [⟨"Russia", "India", "RUS", "IND", "Country", "Country", 2020, "Aircraft", 50⟩]

/-- A register with two suppliers sharing the map-code RUS
(Soviet Union is a Former Country whose successor code is RUS). -/
def df2 : List TradeRow :=
  [⟨"Russia", "India", "RUS", "IND", "Country", "Country", 2020, "Aircraft", 50⟩,
   ⟨"Soviet Union", "India", "RUS", "IND", "Former Country", "Country", 1980, "Aircraft", 30⟩]

/-- A three-region renderable world set. -/
def world3 : List WorldRow := [⟨"Russia", "RUS"⟩, ⟨"India", "IND"⟩, ⟨"France", "FRA"⟩]

/-- Global Net Balance query over all years and categories. -/
def qNetGlobal : Query := ⟨.netBalance, none, none, "All regions", none⟩

/-- Global Supplied query for year 2020. -/
def qSup2020 : Query := ⟨.supplied, some 2020, none, "All regions", none⟩

/-- Global Supplied query for year 1900 (matches no row of `df1`). -/
def q1900 : Query := ⟨.supplied, some 1900, none, "All regions", none⟩

/-- Global Supplied query with the "Country" region-type filter. -/
def qSupCountry : Query := ⟨.supplied, none, none, "Country", none⟩

/-- Net Balance query focused on India. -/
def qNetFocus : Query := ⟨.netBalance, none, none, "All regions", some "India"⟩

/-! ### Units formulas of the composite aggregation paths -/

lemma mem_calcGlobal_net {q : Query} {rows : List TradeRow} {a : AggRow}
    (h : q.activity = .netBalance) (ha : a ∈ calcTotalsGlobal q rows) :
    a.units = a.supplied.getD 0 - a.received.getD 0 := by
  simp only [calcTotalsGlobal, h] at ha
  obtain ⟨⟨k, s, r⟩, _, rfl⟩ := List.mem_map.mp ha
  simp

lemma mem_calcGlobal_total {q : Query} {rows : List TradeRow} {a : AggRow}
    (h : q.activity = .totalActivity) (ha : a ∈ calcTotalsGlobal q rows) :
    a.units = a.supplied.getD 0 + a.received.getD 0 := by
  simp only [calcTotalsGlobal, h] at ha
  obtain ⟨⟨k, s, r⟩, _, rfl⟩ := List.mem_map.mp ha
  simp

lemma mem_calcFocus_base {q : Query} {rows : List TradeRow} {a : AggRow}
    (ha : a ∈ calcTotalsForRegion q rows) :
    a ∈ (match q.activity with
      | .supplied =>
          (groupSum recipientId rows).map
            (fun (p : Ident × Int) => (⟨p.1.name, p.1.iso, p.1.rtype, none, none, p.2⟩ : AggRow))
      | .received =>
          (groupSum supplierId rows).map
            (fun (p : Ident × Int) => (⟨p.1.name, p.1.iso, p.1.rtype, none, none, p.2⟩ : AggRow))
      | act =>
          (dirJoinFocus rows).map
            (fun (t : Ident × Int × Int) => (⟨t.1.name, t.1.iso, t.1.rtype, some t.2.2, some t.2.1,
              if act = Activity.netBalance then t.2.1 - t.2.2 else t.2.2 + t.2.1⟩ : AggRow))) := by
  rw [calcTotalsForRegion] at ha
  rcases hreg : q.region with _ | reg
  · rw [hreg] at ha
    exact ha
  · rw [hreg] at ha
    exact (List.mem_filter.mp ha).1

lemma mem_calcFocus_net {q : Query} {rows : List TradeRow} {a : AggRow}
    (h : q.activity = .netBalance) (ha : a ∈ calcTotalsForRegion q rows) :
    a.units = a.received.getD 0 - a.supplied.getD 0 := by
  have hb := mem_calcFocus_base ha
  rw [h] at hb
  obtain ⟨⟨k, rv, sv⟩, _, rfl⟩ := List.mem_map.mp hb
  simp

lemma mem_calcFocus_total {q : Query} {rows : List TradeRow} {a : AggRow}
    (h : q.activity = .totalActivity) (ha : a ∈ calcTotalsForRegion q rows) :
    a.units = a.supplied.getD 0 + a.received.getD 0 := by
  have hb := mem_calcFocus_base ha
  rw [h] at hb
  obtain ⟨⟨k, rv, sv⟩, _, rfl⟩ := List.mem_map.mp hb
  simp

/-! ### Claim C1 -/

/-- Claim C1 (counterexample): on the spec's one-row register, the global
Net Balance aggregate gives India the net quantity -50 and Russia +50 —
the code computes Supplied − Received in the global view, so the claimed
"India row has Net=50 and the Russia row has Net=-50" is false. -/
theorem c1_counterexample :
    (prepareTable qNetGlobal df1).map (fun a => (a.region, a.units)) =
      [("Russia", 50), ("India", -50)] ∧
    ¬ (prepareTable qNetGlobal df1).map (fun a => (a.region, a.units)) =
      [("India", 50), ("Russia", -50)] := by
  constructor
  · decide
  · decide

/-- Claim C1 (amended): for every register and every Net Balance query, the
global aggregate's net quantity is supplied − received (so the row of a pure
recipient is negative), while the focus-region counterpart view computes
received − supplied. -/
theorem c1_netBalance_sign (q : Query) (rows : List TradeRow)
    (h : q.activity = .netBalance) :
    (∀ a ∈ calcTotalsGlobal q rows, a.units = a.supplied.getD 0 - a.received.getD 0) ∧
    (∀ a ∈ calcTotalsForRegion q rows, a.units = a.received.getD 0 - a.supplied.getD 0) :=
  ⟨fun _ ha => mem_calcGlobal_net h ha, fun _ ha => mem_calcFocus_net h ha⟩

/-- Witness for C1's amended theorem at the scenario register. -/
theorem c1_netBalance_sign_witness :
    qNetGlobal.activity = .netBalance ∧
    (∀ a ∈ calcTotalsGlobal qNetGlobal df1,
      a.units = a.supplied.getD 0 - a.received.getD 0) :=
  ⟨rfl, (c1_netBalance_sign qNetGlobal df1 rfl).1⟩

/-! ### Claim C7 -/

/-- Claim C7: in the composite modes both code paths outer-join the two
directional groupings, so every identity active in either direction appears,
with the grouped sum for each direction (0 when inactive in it); the global
triple is (identity, supplied, received), the focus triple
(identity, received, supplied); and every aggregate row satisfies the
conservation equation of its mode: Total = Supplied + Received, and
Net = Supplied − Received globally, Received − Supplied under a focus. -/
theorem c7_composite_join_conservation (q : Query) (rows : List TradeRow)
    (hq : q.activity = .netBalance ∨ q.activity = .totalActivity) :
    (∀ k s r, (k, s, r) ∈ dirJoin rows ↔
      ((k ∈ rows.map supplierId ∨ k ∈ rows.map recipientId) ∧
        s = sumBy supplierId rows k ∧ r = sumBy recipientId rows k)) ∧
    (∀ k, k ∈ rows.map supplierId → k ∉ rows.map recipientId →
      (k, sumBy supplierId rows k, 0) ∈ dirJoin rows) ∧
    (∀ k, k ∈ rows.map recipientId → k ∉ rows.map supplierId →
      (k, 0, sumBy recipientId rows k) ∈ dirJoin rows) ∧
    (∀ k rv sv, (k, rv, sv) ∈ dirJoinFocus rows ↔
      ((k ∈ rows.map recipientId ∨ k ∈ rows.map supplierId) ∧
        rv = sumBy recipientId rows k ∧ sv = sumBy supplierId rows k)) ∧
    (∀ a ∈ calcTotalsGlobal q rows,
      a.units = if q.activity = .netBalance then a.supplied.getD 0 - a.received.getD 0
        else a.supplied.getD 0 + a.received.getD 0) ∧
    (∀ a ∈ calcTotalsForRegion q rows,
      a.units = if q.activity = .netBalance then a.received.getD 0 - a.supplied.getD 0
        else a.supplied.getD 0 + a.received.getD 0) := by
  refine ⟨mem_dirJoin rows, ?_, ?_, mem_dirJoinFocus rows, ?_, ?_⟩
  · intro k hks hkr
    exact (mem_dirJoin rows k _ 0).mpr
      ⟨Or.inl hks, rfl, (sumBy_of_not_mem recipientId rows k hkr).symm⟩
  · intro k hkr hks
    exact (mem_dirJoin rows k 0 _).mpr
      ⟨Or.inr hkr, (sumBy_of_not_mem supplierId rows k hks).symm, rfl⟩
  · intro a ha
    rcases hq with h | h
    · rw [if_pos h]
      exact mem_calcGlobal_net h ha
    · rw [if_neg (by rw [h]; intro hc; cases hc)]
      exact mem_calcGlobal_total h ha
  · intro a ha
    rcases hq with h | h
    · rw [if_pos h]
      exact mem_calcFocus_net h ha
    · rw [if_neg (by rw [h]; intro hc; cases hc)]
      exact mem_calcFocus_total h ha

/-- Witness for C7 at the scenario register: Russia is active only as a
supplier and appears in the outer join with 0 received. -/
theorem c7_composite_join_conservation_witness :
    (qNetGlobal.activity = .netBalance ∨ qNetGlobal.activity = .totalActivity) ∧
    ((⟨"Russia", "RUS", "Country"⟩ : Ident), (50 : Int), (0 : Int)) ∈ dirJoin df1 :=
  ⟨Or.inl rfl,
    ((c7_composite_join_conservation qNetGlobal df1 (Or.inl rfl)).2.1)
      ⟨"Russia", "RUS", "Country"⟩ (by decide) (by decide)⟩

/-! ### Emptiness and subset lemmas for the pipeline -/

lemma mem_yearFilter {q : Query} {df : List TradeRow} {r : TradeRow}
    (h : r ∈ yearFilter q df) : r ∈ df := by
  rw [yearFilter] at h
  rcases hy : q.year with _ | y
  · rw [hy] at h
    exact h
  · rw [hy] at h
    exact (List.mem_filter.mp h).1

lemma mem_catFilter {q : Query} {df : List TradeRow} {r : TradeRow}
    (h : r ∈ catFilter q df) : r ∈ df := by
  rw [catFilter] at h
  rcases hc : q.armsCategory with _ | c
  · rw [hc] at h
    exact h
  · rw [hc] at h
    exact (List.mem_filter.mp h).1

lemma groupSum_nil (key : TradeRow → Ident) : groupSum key [] = [] := rfl

lemma calcTotalsGlobal_nil (q : Query) : calcTotalsGlobal q [] = [] := by
  obtain ⟨act, yr, cat, rt, reg⟩ := q
  cases act <;> rfl

lemma calcTotalsForRegion_nil (q : Query) : calcTotalsForRegion q [] = [] := by
  obtain ⟨act, yr, cat, rt, reg⟩ := q
  cases act <;> cases reg <;> rfl

lemma filterRegionType_nil (q : Query) : filterRegionType q [] = [] := by
  rw [filterRegionType]
  split
  · rfl
  · split
    · rfl
    · rfl

lemma prepareTable_of_filterData_nil {q : Query} {df : List TradeRow}
    (h : filterData q df = []) : prepareTable q df = [] := by
  rw [prepareTable, h]
  rcases hreg : q.region with _ | reg
  · rw [calcTotalsGlobal_nil, filterRegionType_nil]
  · rw [calcTotalsForRegion_nil, filterRegionType_nil]

/-! ### Claim C4 -/

/-- Claim C4 (counterexample): querying the one-row 2020 register with
year 1900 raises the empty-result error, but its message carries a trailing
period — "No data for selected filters." — so it is not exactly the string
"No data for selected filters" the claim states. -/
theorem c4_counterexample :
    preparePlotData q1900 df1 world3 = Except.error "No data for selected filters." ∧
    "No data for selected filters." ≠ "No data for selected filters" := by
  constructor
  · rw [preparePlotData, if_pos (by decide)]
  · decide

/-- Claim C4 (amended): the aggregation fails exactly when zero rows remain
after all filters (including the region-type filter), the failure carries
the message "No data for selected filters." (with a trailing period), and no
merged map table is produced on failure. -/
theorem c4_empty_result (q : Query) (df : List TradeRow) (world : List WorldRow) :
    (preparePlotData q df world = Except.error "No data for selected filters." ↔
      prepareTable q df = []) ∧
    (∀ e, preparePlotData q df world = Except.error e →
      e = "No data for selected filters.") := by
  constructor
  · rw [preparePlotData]
    by_cases h : prepareTable q df = []
    · simp [h]
    · simp [h]
  · intro e
    rw [preparePlotData]
    by_cases h : prepareTable q df = []
    · simp [h]
      intro he
      exact he.symm
    · simp [h]

/-! ### Claim C10 -/

/-- Claim C10: with a focus region, activity Supplied and the region-type
filter set to the literal "All regions", the row filter demands recipient
region-type equal to "All regions"; enrichment only assigns the five
variants, so the filter result is empty and the query always raises the
empty-result error, whatever the register holds. -/
theorem c10_all_regions_focus_supplied (q : Query) (df : List TradeRow)
    (world : List WorldRow) (x : String)
    (hact : q.activity = .supplied) (hreg : q.region = some x)
    (hrt : q.regionType = "All regions")
    (hdf : ∀ r ∈ df, r.recipientType ∈ regionTypeVariants) :
    filterData q df = [] ∧
    preparePlotData q df world = Except.error "No data for selected filters." := by
  have hfd : filterData q df = [] := by
    rw [filterData, regionActivityFilter, hreg, hact]
    rw [List.filter_eq_nil_iff]
    intro r hr
    have hrdf : r ∈ df := mem_yearFilter (mem_catFilter (List.mem_filter.mp hr).1)
    simp only [decide_eq_true_eq, hrt]
    have hv := hdf r hrdf
    simp only [regionTypeVariants, List.mem_cons, List.not_mem_nil, or_false] at hv
    rcases hv with h | h | h | h | h
    · rw [h]; decide
    · rw [h]; decide
    · rw [h]; decide
    · rw [h]; decide
    · rw [h]; decide
  refine ⟨hfd, ?_⟩
  rw [preparePlotData, if_pos (prepareTable_of_filterData_nil hfd)]

/-- Witness for C10 at the scenario register (focus "India"). -/
theorem c10_all_regions_focus_supplied_witness :
    (⟨Activity.supplied, none, none, "All regions", some "India"⟩ : Query).activity
        = .supplied ∧
    preparePlotData ⟨Activity.supplied, none, none, "All regions", some "India"⟩ df1 world3
        = Except.error "No data for selected filters." :=
  ⟨rfl, (c10_all_regions_focus_supplied
      ⟨Activity.supplied, none, none, "All regions", some "India"⟩ df1 world3 "India"
      rfl rfl rfl (by decide)).2⟩

/-! ### Lemmas about the geolocation left join -/

lemma mem_mergeBlock_iso {aggs : List AggRow} {w : WorldRow} {m : MergedRow}
    (hm : m ∈ mergeBlock aggs w) : m.iso = w.iso := by
  rw [mergeBlock] at hm
  rcases hf : aggs.filter (fun a => decide (a.iso = w.iso)) with _ | ⟨a0, as⟩
  · rw [hf] at hm
    rw [List.mem_singleton.mp hm]
  · rw [hf] at hm
    obtain ⟨a, _, rfl⟩ := List.mem_map.mp hm
    rfl

lemma mergeBlock_filter_self (aggs : List AggRow) (w : WorldRow) :
    (mergeBlock aggs w).filter (fun m => decide (m.iso = w.iso)) = mergeBlock aggs w :=
  List.filter_eq_self.mpr (fun _ hm => decide_eq_true (mem_mergeBlock_iso hm))

lemma mergeBlock_filter_ne (aggs : List AggRow) (w : WorldRow) (iso0 : String)
    (h : w.iso ≠ iso0) :
    (mergeBlock aggs w).filter (fun m => decide (m.iso = iso0)) = [] := by
  rw [List.filter_eq_nil_iff]
  intro m hm
  simp only [decide_eq_true_eq]
  intro he
  exact h ((mem_mergeBlock_iso hm).symm.trans he)

lemma mergeGeolocation_cons (aggs : List AggRow) (w : WorldRow) (t : List WorldRow) :
    mergeGeolocation (w :: t) aggs = mergeBlock aggs w ++ mergeGeolocation t aggs := rfl

lemma merge_filter_not_mem (aggs : List AggRow) (ws : List WorldRow) (iso0 : String)
    (h : ∀ u ∈ ws, u.iso ≠ iso0) :
    (mergeGeolocation ws aggs).filter (fun m => decide (m.iso = iso0)) = [] := by
  induction ws with
  | nil => rfl
  | cons w t ih =>
    rw [mergeGeolocation_cons, List.filter_append,
      mergeBlock_filter_ne aggs w iso0 (h w (List.mem_cons_self w t)), List.nil_append]
    exact ih (fun u hu => h u (List.mem_cons_of_mem _ hu))

lemma merge_filter_mem (aggs : List AggRow) (world : List WorldRow) (w : WorldRow)
    (hN : (world.map WorldRow.iso).Nodup) (hw : w ∈ world) :
    (mergeGeolocation world aggs).filter (fun m => decide (m.iso = w.iso)) =
      mergeBlock aggs w := by
  induction world with
  | nil => cases hw
  | cons w' t ih =>
    rw [List.map_cons, List.nodup_cons] at hN
    obtain ⟨hni, hnt⟩ := hN
    rw [mergeGeolocation_cons, List.filter_append]
    rcases List.mem_cons.mp hw with rfl | hwt
    · rw [mergeBlock_filter_self,
        merge_filter_not_mem aggs t w.iso
          (fun u hu he => hni (by rw [← he]; exact List.mem_map_of_mem WorldRow.iso hu)),
        List.append_nil]
    · have hne : w'.iso ≠ w.iso :=
        fun he => hni (by rw [he]; exact List.mem_map_of_mem WorldRow.iso hwt)
      rw [mergeBlock_filter_ne aggs w' w.iso hne, List.nil_append]
      exact ih hnt hwt

/-! ### Claim C2 -/

/-- Claim C2 (counterexample): on the one-row Russia→India Supplied scenario
the regions absent from the trade rows (India, France) carry a null (pandas
NaN) quantity after the left join, not the claimed zero; and a register in
which Russia and the Soviet Union share the map-code RUS makes RUS appear
twice in the merged output, refuting "exactly once". -/
theorem c2_counterexample :
    (mergeGeolocation world3 (prepareTable qSup2020 df1)).map (fun m => (m.iso, m.units)) =
      [("RUS", some 50), ("IND", none), ("FRA", none)] ∧
    ((mergeGeolocation world3 (prepareTable qSupCountry df2)).filter
      (fun m => decide (m.iso = "RUS"))).length = 2 := by
  constructor
  · decide
  · decide

/-- Claim C2 (amended): provided the renderable regions have pairwise
distinct map-codes, every renderable region's map-code appears at least once
in the merged output — exactly once when at most one aggregate row carries
that code — and a region with no matching aggregate row carries null
(absent) quantities, not zeros. -/
theorem c2_left_join_completeness (q : Query) (df : List TradeRow)
    (world : List WorldRow) (w : WorldRow)
    (hN : (world.map WorldRow.iso).Nodup) (hw : w ∈ world) :
    ((prepareTable q df).filter (fun a => decide (a.iso = w.iso)) = [] →
      (mergeGeolocation world (prepareTable q df)).filter
          (fun m => decide (m.iso = w.iso)) =
        [(⟨w.name, w.iso, none, none, none, none, none⟩ : MergedRow)]) ∧
    ((mergeGeolocation world (prepareTable q df)).filter
        (fun m => decide (m.iso = w.iso))).length =
      max 1 ((prepareTable q df).filter (fun a => decide (a.iso = w.iso))).length := by
  have key := merge_filter_mem (prepareTable q df) world w hN hw
  constructor
  · intro h0
    rw [key, mergeBlock, h0]
  · rw [key, mergeBlock]
    rcases hf : (prepareTable q df).filter (fun a => decide (a.iso = w.iso)) with _ | ⟨a0, as⟩
    · rw [hf]
      simp
    · rw [hf]
      simp only [List.length_map, List.length_cons]
      omega

/-- Witness for C2's amended theorem: France has no aggregate row in the
Russia→India scenario and appears exactly once, fully null. -/
theorem c2_left_join_completeness_witness :
    (world3.map WorldRow.iso).Nodup ∧
    (mergeGeolocation world3 (prepareTable qSup2020 df1)).filter
        (fun m => decide (m.iso = "FRA")) =
      [(⟨"France", "FRA", none, none, none, none, none⟩ : MergedRow)] :=
  ⟨by decide,
    (c2_left_join_completeness qSup2020 df1 world3 ⟨"France", "FRA"⟩
      (by decide) (by decide)).1 (by decide)⟩

/-! ### Claim C9 -/

/-- Claim C9: evaluation of the title builders at the failing inputs.  A
query with no focus region gets the title prefix "None - " (the f-string
rendering of the unset region), while a query focused on India gets no
region prefix at all — the opposite of the claimed "region prefix present
exactly when a focus region is set".  The phrase/year/category order itself
matches the claimed [region] - [year] - [activity] - [category]. -/
theorem c9_title_region_prefix_swapped :
    plotTitle ⟨.supplied, some 2020, some "Aircraft", "All regions", none⟩ =
      "None - 2020 - Weapons Supplied to other regions - Aircraft" ∧
    plotTitle ⟨.supplied, some 2020, some "Aircraft", "Country", some "India"⟩ =
      "2020 - Weapons Supplied - Aircraft" := ⟨rfl, rfl⟩

/-! ### Claim C8 -/

/-- Claim C8: evaluation of the hover templates at the failing inputs.  For
a composite mode the code shows the three values to two decimals as claimed,
but the direction labels are swapped relative to the claim: the unfocused
(global) template carries "Supplied by None" / "Received from other
regions", while the India-focused template carries the plain "Supplied" /
"Received". -/
theorem c8_hover_labels_swapped :
    plotHovertemplate "units" ⟨.netBalance, none, none, "All regions", none⟩ =
      "<b>%\x7blocation\x7d</b><br>units: %\x7bcustomdata[0]:.2f\x7d<br>Supplied by None: %\x7bcustomdata[1]:.2f\x7d<br>Received from other regions: %\x7bcustomdata[2]:.2f\x7d<extra></extra>" ∧
    plotHovertemplate "units" ⟨.netBalance, none, none, "All regions", some "India"⟩ =
      "<b>%\x7blocation\x7d</b><br>units: %\x7bcustomdata[0]:.2f\x7d<br>Supplied: %\x7bcustomdata[1]:.2f\x7d<br>Received: %\x7bcustomdata[2]:.2f\x7d<extra></extra>" :=
  ⟨rfl, rfl⟩

/-! ### Claim C5 -/

/-- Claim C5: the signed-log transform is `sign(x)·ln(1+|x|)`, vanishes at
zero, is odd, and is exactly inverted by `sign(y)·(exp(|y|)−1)` (the
floating-point claim holds with zero error in the real-number model). -/
theorem c5_signed_log_round_trip (x : ℝ) :
    signedLog x = Real.sign x * Real.log (1 + |x|) ∧
    signedLogInv (signedLog x) = x ∧
    signedLog 0 = 0 ∧
    signedLog (-x) = - signedLog x := by
  refine ⟨rfl, ?_, ?_, ?_⟩
  · rcases lt_trichotomy x 0 with hx | hx | hx
    · have h1x : (0 : ℝ) < 1 - x := by linarith
      have hy : signedLog x = -Real.log (1 - x) := by
        rw [signedLog, Real.sign_of_neg hx, abs_of_neg hx]
        ring_nf
      have hlog : 0 < Real.log (1 - x) := Real.log_pos (by linarith)
      rw [signedLogInv, hy]
      rw [Real.sign_of_neg (by linarith), abs_neg, abs_of_pos hlog, Real.exp_log h1x]
      ring
    · subst hx
      simp [signedLog, signedLogInv]
    · have h1x : (0 : ℝ) < 1 + x := by linarith
      have hy : signedLog x = Real.log (1 + x) := by
        rw [signedLog, Real.sign_of_pos hx, abs_of_pos hx, one_mul]
      have hlog : 0 < Real.log (1 + x) := Real.log_pos (by linarith)
      rw [signedLogInv, hy, Real.sign_of_pos hlog, abs_of_pos hlog, Real.exp_log h1x]
      ring
  · simp [signedLog]
  · rcases lt_trichotomy x 0 with hx | hx | hx
    · rw [signedLog, signedLog, abs_neg, Real.sign_of_pos (neg_pos.mpr hx),
        Real.sign_of_neg hx]
      ring
    · subst hx
      simp [signedLog]
    · rw [signedLog, signedLog, abs_neg, Real.sign_of_neg (neg_neg_iff_pos.mpr hx),
        Real.sign_of_pos hx]
      ring

/-! ### Lemmas about the colorbar bound and ticks -/

lemma roundToMultiple_pos (m p : Nat) (hp : 0 < p) (hpm : p ≤ m) :
    0 < roundToMultiple m p := by
  rw [roundToMultiple]
  have hq : 1 ≤ m / p := (Nat.one_le_div_iff hp).mpr hpm
  have h1 : 0 < m / p * p := Nat.mul_pos hq hp
  have h2 : 0 < (m / p + 1) * p := Nat.mul_pos (by omega) hp
  split
  · exact h1
  · split
    · exact h2
    · split
      · exact h1
      · exact h2

lemma roundLeading_pos (m : Nat) (hm : 0 < m) : 0 < roundLeading m :=
  roundToMultiple_pos m _ (pow_pos (by norm_num) _)
    (Nat.pow_log_le_self 10 (Nat.pos_iff_ne_zero.mp hm))

lemma roundLeading_lt_cbarBound (m : Nat) : roundLeading m < cbarBound m :=
  Nat.lt_pow_succ_log_self (by norm_num) (roundLeading m)

lemma cbarBound_least (m p : Nat) (hm : 0 < m) (h : roundLeading m < 10 ^ p) :
    cbarBound m ≤ 10 ^ p := by
  rw [cbarBound]
  refine Nat.pow_le_pow_right (by norm_num) ?_
  have h0 : roundLeading m ≠ 0 := (roundLeading_pos m hm).ne'
  have hlow : 10 ^ Nat.log 10 (roundLeading m) ≤ roundLeading m :=
    Nat.pow_log_le_self 10 h0
  have : (10 : Nat) ^ Nat.log 10 (roundLeading m) < 10 ^ p := lt_of_le_of_lt hlow h
  have := (Nat.pow_lt_pow_iff_right (by norm_num : 1 < 10)).mp this
  omega

lemma log_cbarBound (m : Nat) :
    Nat.log 10 (cbarBound m) = Nat.log 10 (roundLeading m) + 1 := by
  rw [cbarBound, Nat.log_pow (by norm_num)]

lemma cbarBound_cast (m : Nat) :
    (cbarBound m : Int) = (10 : Int) ^ (Nat.log 10 (cbarBound m)) := by
  rw [log_cbarBound, cbarBound]
  push_cast
  rfl

lemma mem_cbarTickText (m : Nat) (t : Int) :
    t ∈ cbarTickText m ↔
      ∃ i : Nat, 1 ≤ i ∧ t = (10 : Int) ^ i ∧ t ≤ (cbarBound m : Int) := by
  rw [cbarTickText, List.mem_map]
  constructor
  · rintro ⟨i, hi, rfl⟩
    rw [List.mem_range'_1] at hi
    obtain ⟨h1, h2⟩ := hi
    refine ⟨i, h1, rfl, ?_⟩
    rw [cbarBound_cast]
    exact pow_le_pow_right₀ (by norm_num) (by omega)
  · rintro ⟨i, h1, rfl, hle⟩
    refine ⟨i, ?_, rfl⟩
    rw [List.mem_range'_1]
    refine ⟨h1, ?_⟩
    rw [cbarBound_cast] at hle
    have := (pow_le_pow_iff_right₀ (by norm_num : (1 : Int) < 10)).mp hle
    omega

lemma mem_cbarTickTextDiv (m : Nat) (t : Int) :
    t ∈ cbarTickTextDiv m ↔
      (t = 0 ∨ ∃ i : Nat, 1 ≤ i ∧ (t = (10 : Int) ^ i ∨ t = -((10 : Int) ^ i)) ∧
        (10 : Int) ^ i ≤ (cbarBound m : Int)) := by
  rw [cbarTickTextDiv,
    (List.perm_insertionSort (fun a b => a ≤ b) _).mem_iff,
    List.append_assoc, List.mem_append, List.mem_append, List.mem_map]
  constructor
  · rintro (⟨s, hs, rfl⟩ | h | h)
    · obtain ⟨i, h1, rfl, hle⟩ := (mem_cbarTickText m s).mp hs
      exact Or.inr ⟨i, h1, Or.inr rfl, hle⟩
    · exact Or.inl (List.mem_singleton.mp h)
    · obtain ⟨i, h1, rfl, hle⟩ := (mem_cbarTickText m t).mp h
      exact Or.inr ⟨i, h1, Or.inl rfl, hle⟩
  · rintro (rfl | ⟨i, h1, rfl | rfl, hle⟩)
    · exact Or.inr (Or.inl (List.mem_singleton.mpr rfl))
    · exact Or.inr (Or.inr ((mem_cbarTickText m _).mpr ⟨i, h1, rfl, hle⟩))
    · exact Or.inl ⟨(10 : Int) ^ i, (mem_cbarTickText m _).mpr ⟨i, h1, rfl, hle⟩, rfl⟩

/-! ### Claim C3 -/

/-- Claim C3 (counterexample): for a maximum absolute value of 50 (the
scenario register's quantity) the upper bound is 100 yet the emitted labels
are [10, 100] — the bound itself is emitted, refuting "up to but not
including that bound" (which would yield [10] only). -/
theorem c3_counterexample :
    cbarBound 50 = 100 ∧ cbarTickText 50 = [10, 100] ∧ cbarTickText 50 ≠ [10] := by
  have h1 : Nat.log 10 50 = 1 := Nat.log_eq_of_pow_le_of_lt_pow (by norm_num) (by norm_num)
  have h2 : roundLeading 50 = 50 := by
    rw [roundLeading, h1]
    decide
  have h3 : cbarBound 50 = 100 := by
    rw [cbarBound, h2, h1]
    decide
  have h4 : Nat.log 10 100 = 2 := Nat.log_eq_of_pow_le_of_lt_pow (by norm_num) (by norm_num)
  refine ⟨h3, ?_, ?_⟩
  · rw [cbarTickText, h3, h4]
    decide
  · rw [cbarTickText, h3, h4]
    decide

/-- Claim C3 (amended): for a positive maximum, the code rounds it to its
leading significant digit and takes the next power of ten strictly above the
rounded value as the bound; the non-diverging labels are exactly the powers
10^i (i ≥ 1) up to and including that bound; the Net Balance labels are
exactly those powers, their negatives and a zero tick, sorted ascending; and
every tick is positioned at the signed log of its label value. -/
theorem c3_cbar_ticks (m : Nat) (hm : 0 < m) :
    roundLeading m < cbarBound m ∧
    (∀ p : Nat, roundLeading m < 10 ^ p → cbarBound m ≤ 10 ^ p) ∧
    (∀ t : Int, t ∈ cbarTickText m ↔
      ∃ i : Nat, 1 ≤ i ∧ t = (10 : Int) ^ i ∧ t ≤ (cbarBound m : Int)) ∧
    (∀ t : Int, t ∈ cbarTickTextDiv m ↔
      (t = 0 ∨ ∃ i : Nat, 1 ≤ i ∧ (t = (10 : Int) ^ i ∨ t = -((10 : Int) ^ i)) ∧
        (10 : Int) ^ i ≤ (cbarBound m : Int))) ∧
    (cbarTickTextDiv m).Sorted (fun a b => a ≤ b) ∧
    (getCbarTicks m false).1 = (cbarTickText m).map (fun t => signedLog (t : ℝ)) ∧
    (getCbarTicks m true).1 = (cbarTickTextDiv m).map (fun t => signedLog (t : ℝ)) :=
  ⟨roundLeading_lt_cbarBound m,
   fun p hp => cbarBound_least m p hm hp,
   mem_cbarTickText m,
   mem_cbarTickTextDiv m,
   List.sorted_insertionSort (fun a b => a ≤ b) _,
   rfl, rfl⟩

/-- Witness for C3's amended theorem at the scenario maximum 50. -/
theorem c3_cbar_ticks_witness :
    0 < 50 ∧ roundLeading 50 < cbarBound 50 ∧
      (cbarTickTextDiv 50).Sorted (fun a b => a ≤ b) :=
  ⟨by decide, (c3_cbar_ticks 50 (by decide)).1,
    (c3_cbar_ticks 50 (by decide)).2.2.2.2.1⟩

/-! ### Lemmas about the classification -/

lemma strEnds_star_of_double {s : String} (h : strEnds s "**" = true) :
    strEnds s "*" = true := by
  rw [strEnds, List.isSuffixOf_iff_suffix] at h ⊢
  exact List.IsSuffix.trans ⟨['*'], rfl⟩ h

lemma former_no_marker :
    ∀ s ∈ formerCountriesList, strHas s "unknown" = false ∧ strEnds s "*" = false := by
  decide

lemma mem_countriesOf {regions : List String} {r : String} :
    r ∈ countriesOf regions ↔
      (r ∈ regions ∧ strHas r "unknown" = false ∧ strEnds r "*" = false ∧
        r ∉ formerCountriesList) := by
  rw [countriesOf, List.mem_filter, List.mem_filter]
  simp only [Bool.and_eq_true, Bool.not_eq_true', decide_eq_true_eq]
  tauto

lemma mem_orgsOf {regions : List String} {r : String} :
    r ∈ orgsOf regions ↔
      (r ∈ regions ∧ strHas r "unknown" = false ∧ strEnds r "**" = true) := by
  rw [orgsOf, List.mem_filter]
  simp only [Bool.and_eq_true, Bool.not_eq_true']

lemma mem_rebelGroupsOf {regions : List String} {r : String} :
    r ∈ rebelGroupsOf regions ↔
      (r ∈ regions ∧ strHas r "unknown" = false ∧ strEnds r "*" = true ∧
        strEnds r "**" = false) := by
  rw [rebelGroupsOf, List.mem_filter]
  simp only [Bool.and_eq_true, Bool.not_eq_true']
  tauto

lemma getRegionType_eq_spec (regions : List String) (r : String) (hr : r ∈ regions) :
    getRegionType regions r = specRegionType r := by
  rw [getRegionType, specRegionType]
  by_cases hu : strHas r "unknown" = true
  · have hc : r ∉ countriesOf regions := by
      rw [mem_countriesOf]
      rintro ⟨-, hfalse, -⟩
      rw [hu] at hfalse
      cases hfalse
    have hf : r ∉ formerCountriesList := by
      intro hmem
      have := (former_no_marker r hmem).1
      rw [hu] at this
      cases this
    have ho : r ∉ orgsOf regions := by
      rw [mem_orgsOf]
      rintro ⟨-, hfalse, -⟩
      rw [hu] at hfalse
      cases hfalse
    have hb : r ∉ rebelGroupsOf regions := by
      rw [mem_rebelGroupsOf]
      rintro ⟨-, hfalse, -⟩
      rw [hu] at hfalse
      cases hfalse
    rw [if_neg hc, if_neg hf, if_neg ho, if_neg hb, if_pos hu]
  · have hu' : strHas r "unknown" = false := by
      revert hu
      cases strHas r "unknown" <;> simp
    by_cases hdd : strEnds r "**" = true
    · have hstar : strEnds r "*" = true := strEnds_star_of_double hdd
      have hc : r ∉ countriesOf regions := by
        rw [mem_countriesOf]
        rintro ⟨-, -, hfalse, -⟩
        rw [hstar] at hfalse
        cases hfalse
      have hf : r ∉ formerCountriesList := by
        intro hmem
        have := (former_no_marker r hmem).2
        rw [hstar] at this
        cases this
      have ho : r ∈ orgsOf regions := mem_orgsOf.mpr ⟨hr, hu', hdd⟩
      rw [if_neg hc, if_neg hf, if_pos ho, if_neg hu, if_pos hdd]
    · have hdd' : strEnds r "**" = false := by
        revert hdd
        cases strEnds r "**" <;> simp
      by_cases hs : strEnds r "*" = true
      · have hc : r ∉ countriesOf regions := by
          rw [mem_countriesOf]
          rintro ⟨-, -, hfalse, -⟩
          rw [hs] at hfalse
          cases hfalse
        have hf : r ∉ formerCountriesList := by
          intro hmem
          have := (former_no_marker r hmem).2
          rw [hs] at this
          cases this
        have ho : r ∉ orgsOf regions := by
          rw [mem_orgsOf]
          rintro ⟨-, -, hfalse⟩
          rw [hdd'] at hfalse
          cases hfalse
        have hb : r ∈ rebelGroupsOf regions := mem_rebelGroupsOf.mpr ⟨hr, hu', hs, hdd'⟩
        rw [if_neg hc, if_neg hf, if_neg ho, if_pos hb, if_neg hu, if_neg hdd, if_pos hs]
      · have hs' : strEnds r "*" = false := by
          revert hs
          cases strEnds r "*" <;> simp
        by_cases hfm : r ∈ formerCountriesList
        · have hc : r ∉ countriesOf regions := by
            rw [mem_countriesOf]
            rintro ⟨-, -, -, hnot⟩
            exact hnot hfm
          rw [if_neg hc, if_pos hfm, if_neg hu, if_neg hdd, if_neg hs, if_pos hfm]
        · have hc : r ∈ countriesOf regions := mem_countriesOf.mpr ⟨hr, hu', hs', hfm⟩
          rw [if_pos hc, if_neg hu, if_neg hdd, if_neg hs, if_neg hfm]

lemma getRegionType_mem_variants (regions : List String) (r : String) :
    getRegionType regions r ∈ regionTypeVariants := by
  rw [getRegionType]
  split
  · decide
  · split
    · decide
    · split
      · decide
      · split
        · decide
        · decide

/-! ### Claim C6 -/

/-- Claim C6: over the distinct partner names of a register the code's
classification agrees with the spec's rule order (unknown marker, double
asterisk, single asterisk, the nine historical states, Country), and its
output is always exactly one of the five region-type variants; being a pure
function of the name, classifying the same name twice trivially yields the
same variant. -/
theorem c6_classification (df : List TradeRow) (r : String) (hr : r ∈ mkRegions df) :
    getRegionType (mkRegions df) r = specRegionType r ∧
    getRegionType (mkRegions df) r ∈ regionTypeVariants :=
  ⟨getRegionType_eq_spec (mkRegions df) r hr,
   getRegionType_mem_variants (mkRegions df) r⟩

/-- Witness for C6 at the scenario register and the name "Russia". -/
theorem c6_classification_witness :
    "Russia" ∈ mkRegions df1 ∧
    getRegionType (mkRegions df1) "Russia" = specRegionType "Russia" :=
  ⟨by decide, (c6_classification df1 "Russia" (by decide)).1⟩

end ArmsTrade
